import Mathlib

/-!
# FreshGroup clustering backend — verification development

A shallow embedding of the clustering / re-clustering subsystem of the
FreshGroup student-dashboard backend (`backend/routes/clusters.py`,
`datasets.py`, `students.py`, `cluster_playground.py`), together with
theorems settling the specification claims about it.

Spreadsheet / database cells are modelled by `Cell` (null, string, or
number); tables are lists of `SRow` records with the canonical field
names; the relational store is a `DBState` of four tables mirroring
`datasets`, `students`, `clusters`, `student_cluster`.  External
libraries (scikit-learn KMeans / LabelEncoder, kneed's KneeLocator,
Python's `float`) and repository modules absent from the source tree
(`utils_complete.py`, `utils.py`) are modelled from the specification,
as flagged in the corresponding doc comments.
-/

/-- A spreadsheet / dataframe / database cell: missing (None/NaN), a string,
or a number (Python floats are modelled by `Rat`). -/
inductive Cell where
  | null : Cell
  | str : String → Cell
  | num : Rat → Cell
deriving DecidableEq, Repr

namespace Cell

/-- `pd.isna(val)`: true exactly on missing values. -/
def isna : Cell → Bool
  | .null => true
  | _ => false

/-- Python `str(val)`.  Missing values print as `"None"` (the database
driver hands `None` to the route code; `str(None) = "None"`; pandas
`astype(str)` likewise stringifies missing values, so a later `fillna`
finds nothing to fill).  Numbers print via `Rat`; no claim exercises the
stringification of a numeric cell. -/
def pyStr : Cell → String
  | .null => "None"
  | .str s => s
  | .num q => toString q

end Cell

/-- The case-insensitive sentinel strings used by the upload sanitizers
(`datasets.py`, `safe_text` / `safe_num`). -/
def sentinelList : List String := ["n/a", "na", "none"]

/-- Python `str.lower()` on one character (ASCII; the repository's
sentinel comparisons only involve ASCII). -/
def lowerChar (c : Char) : Char :=
  if 'A' ≤ c && c ≤ 'Z' then Char.ofNat (c.toNat + 32) else c

/-- Python `str.lower()`. -/
def pyLower (s : String) : String := ⟨s.data.map lowerChar⟩

/-- Python whitespace for `str.strip()`. -/
def isSpaceChar (c : Char) : Bool := c == ' ' || c == '\t' || c == '\n' || c == '\r'

/-- Python `str.strip()` with its default whitespace set. -/
def pyStrip (s : String) : String :=
  ⟨((s.data.dropWhile isSpaceChar).reverse.dropWhile isSpaceChar).reverse⟩

/-- One decimal digit. -/
def isDigitChar (c : Char) : Bool := ('0' ≤ c && c ≤ '9')

/-- Value of a non-empty all-digit character list, else `none`. -/
def digitsVal : List Char → Option Nat
  | [] => none
  | cs =>
    if cs.all isDigitChar then
      some (cs.foldl (fun acc c => 10 * acc + (c.toNat - '0'.toNat)) 0)
    else none

/-- Modelled from the spec: Python's `float()` builtin (an external
collaborator).  Modelled for plain decimal numerals with an optional
sign and fractional part — the only forms the repository's data paths
exercise; anything else fails (`none` models the raised `ValueError`). -/
def pyFloat? (s : String) : Option Rat :=
  let t := (pyStrip s).data
  let (sign, body) :=
    match t with
    | '-' :: rest => ((-1 : Rat), rest)
    | '+' :: rest => ((1 : Rat), rest)
    | _ => ((1 : Rat), t)
  match body.splitOn '.' with
  | [intPart] =>
      (digitsVal intPart).map (fun n => sign * (n : Rat))
  | [intPart, fracPart] =>
      match digitsVal intPart, digitsVal fracPart with
      | some n, some f =>
          some (sign * ((n : Rat) + (f : Rat) / ((10 : Rat) ^ fracPart.length)))
      | _, _ => none
  | _ => none

/-- Python `float(val)` on a cell: numbers pass through, strings parse,
missing raises (`none`). -/
def cellFloat? : Cell → Option Rat
  | .null => none
  | .num q => some q
  | .str s => pyFloat? s

/-- `datasets.py` (upload loop, `safe_text`): blank / NA / sentinel text
becomes the literal `"Incomplete"`, anything else is stored stripped. -/
def safe_text (val : Cell) : String :=
  if val.isna || pyStrip val.pyStr == "" || sentinelList.contains (pyLower val.pyStr) then
    "Incomplete"
  else
    pyStrip val.pyStr

/-- `datasets.py` (upload loop, `safe_num`): blank / NA / sentinel or
unparseable numerics become the sentinel `-1`, anything else its float
value. -/
def safe_num (val : Cell) : Rat :=
  if val.isna || pyStrip val.pyStr == "" || sentinelList.contains (pyLower val.pyStr) then
    -1
  else
    match cellFloat? val with
    | some q => q
    | none => -1

/-- `pd.to_numeric(·, errors="coerce")` on one cell: numbers kept,
parseable strings converted, everything else coerced to NaN (`null`). -/
def toNumericCell (c : Cell) : Cell :=
  match c with
  | .num q => .num q
  | .null => .null
  | .str s =>
    match pyFloat? s with
    | some q => .num q
    | none => .null

/-- One student row under the canonical field names (a dataframe row
after `normalize_and_prepare_df` / a row of the `students` table).
`id` and `dataset_id` are only meaningful for database rows. -/
structure SRow where
  id : Nat := 0
  dataset_id : Nat := 0
  firstname : Cell := .null
  lastname : Cell := .null
  sex : Cell := .null
  program : Cell := .null
  municipality : Cell := .null
  shs_type : Cell := .null
  shs_origin : Cell := .null
  gwa : Cell := .null
  income : Cell := .null
  honors : Cell := .null
  incomecategory : Cell := .null
deriving DecidableEq, Repr

/-- A single field passes the completeness check: non-null and, after
string coercion and trimming, not one of the case-insensitive sentinels
`{"", "n/a", "na", "none"}`. -/
def cellPresent (c : Cell) : Bool :=
  !c.isna && !(("" :: sentinelList).contains (pyLower (pyStrip c.pyStr)))

/-- A numeric field additionally parses as a valid number. -/
def cellNumeric (c : Cell) : Bool :=
  cellPresent c && (cellFloat? c).isSome

/-- Modelled from the spec: `utils_complete.is_record_complete_row`
(module not in the source tree).  A record is COMPLETE iff every field
of the fixed required set (firstname, lastname, sex, program,
municipality, income, shs_type, shs_origin, gwa) is non-null and, after
string coercion, not a case-insensitive sentinel in
`{"", "n/a", "na", "none"}`, and the numeric fields (gwa, income) parse
as valid numbers. -/
def is_record_complete_row (r : SRow) : Bool :=
  cellPresent r.firstname && cellPresent r.lastname && cellPresent r.sex &&
  cellPresent r.program && cellPresent r.municipality &&
  cellPresent r.shs_type && cellPresent r.shs_origin &&
  cellNumeric r.gwa && cellNumeric r.income

/-- Modelled from the spec: `utils_complete.filter_complete_students_df`
(module not in the source tree): the sub-table of complete rows,
preserving original row order.  Row identity is tracked through the
`id` field (database rows) or positionally via `completeIdx`. -/
def filter_complete_students_df (rows : List SRow) : List SRow :=
  rows.filter is_record_complete_row

/-- The original positions of the complete rows (the pandas index of
`df_complete`, used by the upload to write predictions back). -/
def completeIdx (rows : List SRow) : List Nat :=
  rows.enum.filterMap
    (fun p => if is_record_complete_row p.2 then some p.1 else none)

/-- Modelled from the spec: `utils.classify_income` (module not in the
source tree): a pure total function of the income value returning a
bracket label from a fixed ordered threshold set; missing / unparseable
income returns the neutral `"Unknown"`.  The concrete thresholds are
implementation-defined and exercised by no claim. -/
def classify_income (income : Cell) : String :=
  match cellFloat? income with
  | none => "Unknown"
  | some q => if q < 10000 then "Low" else if q < 30000 then "Middle" else "High"

/-- Modelled from the spec: `utils.classify_honors` (module not in the
source tree): a pure total function of the record's gwa returning an
honors tier by threshold comparison; missing / unparseable gwa returns
the neutral `"N/A"`.  The concrete thresholds are implementation-defined
and exercised by no claim. -/
def classify_honors (gwa : Cell) : String :=
  match cellFloat? gwa with
  | none => "N/A"
  | some q =>
    if q ≤ (90 : Rat) / 100 * 100 then "With Honors"
    else if q ≤ 95 then "Honors Candidate" else "None"

/-!
## Categorical encoding (`clusters.py encode_categorical_safe`,
`datasets.py normalize_and_prepare_df`)
-/

/-- Coercion applied to one cell of a categorical column inside
`encode_categorical_safe` (`clusters.py`): `astype(str)` stringifies
every cell — missing values become the string `"None"` — after which
`.fillna("Unknown")` finds no missing value left and is the identity. -/
def coerceClustersCell (c : Cell) : String := c.pyStr

/-- Coercion applied inside `normalize_and_prepare_df` (`datasets.py`):
`fillna("Unknown").replace("", "Unknown")` runs BEFORE `astype(str)`, so
missing values and the empty string both become `"Unknown"`. -/
def coerceDatasetsCell (c : Cell) : String :=
  match c with
  | .null => "Unknown"
  | .str "" => "Unknown"
  | c => c.pyStr

/-- Modelled from the spec: scikit-learn's `LabelEncoder.fit_transform`
(an external library): assigns each distinct string of the column a
unique small integer code and maps every cell to its value's code.  The
code order is implementation-defined (sklearn sorts its classes; the
spec allows any stable order); it is modelled here by first-appearance
indexing, which no claim distinguishes from sorted order. -/
def labelEncodeCol (vals : List String) : List Nat :=
  vals.map (fun v => vals.dedup.indexOf v)

/-- The manual fallback mapping of `encode_categorical_safe`
(`clusters.py`, `except` branch): `uniques` in first-seen order,
`mapping = {v: i}`, then `map`. -/
def fallbackEncodeCol (vals : List String) : List Nat :=
  vals.map (fun v => vals.dedup.indexOf v)

/-- `encode_categorical_safe` on one categorical column: coerce via
`astype(str).fillna("Unknown")` (see `coerceClustersCell`), then label
encode; the `except` fallback produces `fallbackEncodeCol` of the same
coerced column. -/
def encode_categorical_safe_col (cells : List Cell) : List Nat :=
  labelEncodeCol (cells.map coerceClustersCell)

/-- The encoding step of `normalize_and_prepare_df` on one categorical
column: coerce nulls/blanks to `"Unknown"` first, then label encode. -/
def normalize_encode_col (cells : List Cell) : List Nat :=
  labelEncodeCol (cells.map coerceDatasetsCell)

/-!
## K-selection (`datasets.py`)
-/

/-- Modelled from the spec: `KMeans(...).inertia_` — the within-cluster
sum of squares reported by the external library.  Its numeric value
enters no claim; only the curve's length does.  Modelled as zero. -/
def kmeansInertia (_k : Nat) (_rows : List (List Rat)) : Rat := 0

/-- Modelled from the spec: fitting scikit-learn `KMeans(n_clusters=k,
random_state=42, n_init=10)` raises when the sample count is below `k`
(and for `k = 0`); `none` models that raised error. -/
def kmeansFitOk (k : Nat) (rows : List (List Rat)) : Bool :=
  1 ≤ k && k ≤ rows.length

/-- `compute_wcss_for_range` (`datasets.py`): one KMeans fit per
`k ∈ [k_min, k_max]`, collecting inertias; `none` models the error
raised when any of those fits fails (sample count below some `k` in the
range). -/
def compute_wcss_for_range (rows : List (List Rat)) (kmin kmax : Nat) : Option (List Rat) :=
  let ks := (List.range (kmax + 1 - kmin)).map (· + kmin)
  if ks.all (fun k => kmeansFitOk k rows) then
    some (ks.map (fun k => kmeansInertia k rows))
  else none

/-- `recommend_k_by_curvature` (`datasets.py`): the `KneeLocator` call
is external and wrapped in `try/except`; its outcome is abstracted by
`kneeResult` (`none` models both "no knee found" and any internal
exception).  When a knee is reported it is returned; otherwise the
deterministic fallback `max(2, min(5, len(wcss) // 2))`. -/
def recommend_k_by_curvature (kneeResult : Option Nat) (wcss : List Rat) : Nat :=
  match kneeResult with
  | some knee => knee
  | none => max 2 (min 5 (wcss.length / 2))

/-!
## Cluster engine (external scikit-learn, spec-modelled)
-/

/-- Modelled from the spec: `StandardScaler().fit_transform` followed by
`KMeans(n_clusters=k, random_state=42, n_init=10).fit_predict` and the
inverse-transformed `cluster_centers_` (§4.6; external library).  The
spec constrains only: determinism for the fixed seed, one label in
`0..k-1` per sample, `k` centroids in feature space, and a raised error
when the sample count is below `k` (or `k = 0`, or an empty matrix fed
to the scaler).  Label values beyond that are library-internal and are
modelled by a fixed deterministic assignment. -/
def kmeansFit (k : Nat) (rows : List (List Rat)) : Option (List Nat × List (List Rat)) :=
  if kmeansFitOk k rows then
    some ((List.range rows.length).map (fun i => i % k),
          (List.range k).map (fun _ => (rows.headD []).map (fun _ => (0 : Rat))))
  else
    none

/-- `fillna(0).astype(float)` on one feature cell. -/
def cellFloat0 (c : Cell) : Rat := (cellFloat? c).getD 0

/-!
## Relational store (`datasets`, `students`, `clusters`,
`student_cluster` tables)
-/

/-- A row of the `datasets` table; `upload_seq` models the
`upload_date` ordering ("latest" = greatest). -/
structure DatasetRow where
  id : Nat
  upload_seq : Nat
  is_active : Bool
deriving DecidableEq, Repr

/-- A row of the `clusters` table; `k` is nullable (the upload inserts
NULL when no `k` was supplied and no complete rows existed). -/
structure ClusterRow where
  id : Nat
  dataset_id : Nat
  k : Option Nat
  centroids : List (List Rat)
deriving DecidableEq, Repr

/-- A row of the `student_cluster` join table (an Assignment). -/
structure SCRow where
  student_id : Nat
  cluster_id : Nat
  cluster_number : Nat
deriving DecidableEq, Repr

/-- The relational store.  `nextId` models the auto-increment id
generator (`cursor.lastrowid`); ids are drawn from one counter, which
keeps every table's ids unique as the storage contract requires. -/
structure DBState where
  datasets : List DatasetRow
  students : List SRow
  clusters : List ClusterRow
  student_cluster : List SCRow
  nextId : Nat
deriving DecidableEq, Repr

/-- `SELECT id FROM datasets ORDER BY upload_date DESC LIMIT 1`. -/
def latestDataset (ds : List DatasetRow) : Option DatasetRow :=
  ds.foldl
    (fun acc d =>
      match acc with
      | none => some d
      | some b => if b.upload_seq < d.upload_seq then some d else some b)
    none

/-- `SELECT * FROM students WHERE dataset_id = %s`. -/
def dstudents (st : DBState) (did : Nat) : List SRow :=
  st.students.filter (fun s => s.dataset_id == did)

/-- The error replies the routes can produce (`HTTPException` status
classes, plus the FastAPI `Query` constraint rejection). -/
inductive HErr where
  | validation (msg : String)
  | badRequest (msg : String)
  | forbidden (msg : String)
  | notFound (msg : String)
  | server (msg : String)
deriving DecidableEq, Repr

/-!
## Re-cluster endpoint (`clusters.py recluster`)
-/

/-- The feature matrix of the recluster endpoint: for each complete row
(in original row order), `[gwa, income]` followed by the five
label-encoded categoricals; the `_enc` columns are computed over the
FULL student table (encoding precedes the completeness filter in the
source) and sampled at the complete rows' original positions. -/
def reclusterX (students : List SRow) : List (List Rat) :=
  let sexE := encode_categorical_safe_col (students.map (·.sex))
  let progE := encode_categorical_safe_col (students.map (·.program))
  let munE := encode_categorical_safe_col (students.map (·.municipality))
  let shstE := encode_categorical_safe_col (students.map (·.shs_type))
  let shsoE := encode_categorical_safe_col (students.map (·.shs_origin))
  (completeIdx students).map (fun i =>
    [cellFloat0 (((students.map (·.gwa)).getD i .null)),
     cellFloat0 (((students.map (·.income)).getD i .null)),
     ((sexE.getD i 0 : Nat) : Rat), ((progE.getD i 0 : Nat) : Rat),
     ((munE.getD i 0 : Nat) : Rat), ((shstE.getD i 0 : Nat) : Rat),
     ((shsoE.getD i 0 : Nat) : Rat)])

/-- The Admin branch of `recluster`: delete the `student_cluster` rows
of every prior cluster of the dataset, delete those clusters, insert
the new cluster row, then insert one assignment per clustered
(complete) student, and commit — all on one connection committed at the
end. -/
def officialReplace (st : DBState) (did k : Nat) (completeIds : List Nat)
    (preds : List Nat) (centroids : List (List Rat)) : DBState :=
  let oldIds := (st.clusters.filter (fun c => c.dataset_id == did)).map (·.id)
  { st with
    clusters := st.clusters.filter (fun c => !(c.dataset_id == did))
      ++ [⟨st.nextId, did, some k, centroids⟩],
    student_cluster := st.student_cluster.filter (fun sc => !(oldIds.contains sc.cluster_id))
      ++ (completeIds.zip preds).map (fun p => ⟨p.1, st.nextId, p.2⟩),
    nextId := st.nextId + 1 }

/-- A reply of the recluster endpoint: the Admin confirmation or the
Viewer preview (rows paired with their labels, plus centroids). -/
inductive ReclusterResp where
  | official (msg : String)
  | preview (students : List (SRow × Nat)) (centroids : List (List Rat))
deriving DecidableEq, Repr

/-- `POST /clusters/recluster` (`clusters.py`).  Returns the resulting
store, a flag recording whether the k-means computation was carried out
(control reached past `fit_predict`), and the HTTP outcome.  Mirrors
the source's control flow: FastAPI `Query(ge=2)` validation, latest
dataset, students, the `k > len(students)` check, normalization /
encoding / completeness filtering, scaling + k-means — and only then
the role dispatch (Admin persists, Viewer previews, anything else gets
403 after the computation already ran). -/
def reclusterOp (k : Nat) (role : String) (st : DBState) :
    DBState × Bool × Except HErr ReclusterResp :=
  if k < 2 then (st, false, .error (.validation "k must be at least 2")) else
  match latestDataset st.datasets with
  | none => (st, false, .error (.notFound "No dataset found"))
  | some d =>
    let students := dstudents st d.id
    if students.isEmpty then
      (st, false, .error (.notFound "No students found for latest dataset"))
    else if students.length < k then
      (st, false, .error (.badRequest "k cannot be greater than number of students"))
    else
      let dfc := filter_complete_students_df students
      let X := reclusterX students
      match kmeansFit k X with
      | none => (st, false, .error (.server "KMeans failed on the filtered sample"))
      | some (preds, centroids) =>
        if role == "Admin" then
          (officialReplace st d.id k (dfc.map (·.id)) preds centroids, true,
           .ok (.official "Official dataset re-clustered"))
        else if role == "Viewer" then
          (st, true, .ok (.preview (dfc.zip preds) centroids))
        else
          (st, true, .error (.forbidden "Unauthorized role"))

/-!
## Playground endpoint (`cluster_playground.py cluster_playground`)
-/

/-- `GET /clusters/playground` (`cluster_playground.py`).  FastAPI
validates `k ∈ [2, 10]` before the handler; the handler checks the role
FIRST, then loads the latest dataset's students, rejects
`k > len(students)`, normalizes / encodes, filters to complete rows
(rejecting when none remain), clusters on `[gwa, income]`
(`actual_col` maps gwa / income to themselves), and returns rows paired
with labels plus centroids.  Nothing is ever written: the store is
returned untouched on every path. -/
def playgroundOp (k : Nat) (role : String) (st : DBState) :
    DBState × Except HErr (List (SRow × Nat) × List (List Rat)) :=
  if k < 2 || 10 < k then (st, .error (.validation "k must be between 2 and 10")) else
  if !(role == "Admin" || role == "Viewer") then (st, .error (.forbidden "Unauthorized role")) else
  match latestDataset st.datasets with
  | none => (st, .error (.notFound "No dataset found"))
  | some d =>
    let students := dstudents st d.id
    if students.isEmpty then
      (st, .error (.notFound "No students found for latest dataset"))
    else if students.length < k then
      (st, .error (.badRequest "k cannot be greater than the number of students"))
    else
      let dfc := filter_complete_students_df students
      if dfc.isEmpty then
        (st, .error (.badRequest "No complete students available for clustering"))
      else
        let X := dfc.map (fun r => [cellFloat0 r.gwa, cellFloat0 r.income])
        match kmeansFit k X with
        | none => (st, .error (.server "KMeans failed on the filtered sample"))
        | some (preds, centroids) => (st, .ok (dfc.zip preds, centroids))

/-!
## Upload endpoint (`datasets.py upload_dataset`)
-/

/-- `normalize_and_prepare_df` (`datasets.py`) at the row level, for a
table already under canonical column names (the header-renaming and
name-splitting of the source are spreadsheet-side column plumbing with
no bearing on any claim; a missing canonical column is a `.null` cell).
In source order: Honors and IncomeCategory are derived from the RAW
cells, gwa / income are coerced to numerics (`errors="coerce"`), and
the in-place `fillna("Unknown").replace("", "Unknown")` preceding the
encoding replaces missing / blank categorical cells by `"Unknown"`.
The companion `_enc` columns are modelled by `normalize_encode_col`. -/
def normalize_and_prepare_row (r : SRow) : SRow :=
  let fillU : Cell → Cell := fun c =>
    match c with
    | .null => .str "Unknown"
    | .str "" => .str "Unknown"
    | c => c
  { r with
    honors := .str (classify_honors r.gwa),
    incomecategory := .str (classify_income r.income),
    gwa := toNumericCell r.gwa,
    income := toNumericCell r.income,
    sex := fillU r.sex,
    program := fillU r.program,
    municipality := fillU r.municipality,
    shs_type := fillU r.shs_type,
    shs_origin := fillU r.shs_origin }

/-- The student row the upload loop persists for one dataframe row:
text fields through `safe_text`, numeric fields through `safe_num`,
the derived labels through `safe_text`. -/
def storedStudent (studentId datasetId : Nat) (r : SRow) : SRow :=
  { id := studentId,
    dataset_id := datasetId,
    firstname := .str (safe_text r.firstname),
    lastname := .str (safe_text r.lastname),
    sex := .str (safe_text r.sex),
    program := .str (safe_text r.program),
    municipality := .str (safe_text r.municipality),
    shs_type := .str (safe_text r.shs_type),
    shs_origin := .str (safe_text r.shs_origin),
    gwa := .num (safe_num r.gwa),
    income := .num (safe_num r.income),
    honors := .str (safe_text r.honors),
    incomecategory := .str (safe_text r.incomecategory) }

/-- The `Cluster` column the upload writes back: `-1` everywhere, then
the predictions at the complete rows' original positions
(`df.loc[df_complete.index, 'Cluster'] = preds`). -/
def uploadClusterCol (rows : List SRow) (preds : List Nat) : List Int :=
  (List.range rows.length).map (fun i =>
    match (completeIdx rows).indexOf? i with
    | some pos => ((preds.getD pos 0 : Nat) : Int)
    | none => -1)

/-- The successful upload reply (`dataset_id`, `total_students`, the
`k` used — `None` is possible — and the three quality metrics). -/
structure UploadResp where
  dataset_id : Nat
  total_students : Nat
  clusters : Option Nat
  silhouette : Rat
  davies_bouldin : Rat
  calinski_harabasz : Rat
deriving DecidableEq, Repr

/-- Greatest `upload_seq` in the store (0 when empty): the new upload
gets a strictly larger one, making it the latest dataset. -/
def maxSeq (ds : List DatasetRow) : Nat :=
  ds.foldl (fun acc d => max acc d.upload_seq) 0

/-- The write phase of the upload, committed as one unit: deactivate
all datasets, insert the new dataset (made active and latest), insert
its cluster row (`kUsed` may be NULL, `centroids` may be empty), insert
every student row sanitized through `safe_text` / `safe_num`, and one
`student_cluster` row per non-sentinel entry of the `Cluster` column. -/
def uploadCommit (st : DBState) (df : List SRow) (kUsed : Option Nat)
    (preds : List Nat) (centroids : List (List Rat)) : DBState :=
  let clusterCol := uploadClusterCol df preds
  let datasetId := st.nextId
  let clusterId := st.nextId + 1
  { datasets := st.datasets.map (fun d => { d with is_active := false })
      ++ [⟨datasetId, maxSeq st.datasets + 1, true⟩],
    students := st.students ++ (List.range df.length).map (fun i =>
      storedStudent (st.nextId + 2 + i) datasetId (df.getD i {})),
    clusters := st.clusters ++ [⟨clusterId, datasetId, kUsed, centroids⟩],
    student_cluster := st.student_cluster ++ ((List.range df.length).filterMap (fun i =>
      match clusterCol.getD i (-1) with
      | .ofNat n => some (⟨st.nextId + 2 + i, clusterId, n⟩ : SCRow)
      | .negSucc _ => none)),
    nextId := st.nextId + 2 + df.length }

/-- `POST /datasets/upload` (`datasets.py`).  Takes the parsed
spreadsheet as canonical rows (file I/O and the extension check are
external plumbing), the optional requested `k`, and the knee-detector
outcome abstraction (see `recommend_k_by_curvature`).  Mirrors the
source: Admin-only; normalize; filter complete rows; if none are
complete, skip clustering with empty `preds` / `centroids` and NO
quality-metric locals assigned; otherwise auto-select `k` when absent
(one k-means fit per k in 2..10 — any failing fit raises) and fit
k-means (a failing fit raises, caught into a 500 before any write);
then deactivate all datasets, insert the dataset, the cluster row, all
student rows (sanitized), and one `student_cluster` row per
non-sentinel label, and commit.  Building the success reply reads the
quality-metric locals: on the zero-complete-rows path they were never
assigned, so the reply raises `NameError` — surfaced as a 500 AFTER the
commit. -/
def uploadOp (raw : List SRow) (kq : Option Nat) (knee : Option Nat)
    (role : String) (st : DBState) : DBState × Except HErr UploadResp :=
  if !(role == "Admin") then
    (st, .error (.forbidden "Only Admins can upload datasets"))
  else
    let df := raw.map normalize_and_prepare_row
    let dfc := filter_complete_students_df df
    let step : Option (List Nat × List (List Rat) × Option Nat
        × Option (Rat × Rat × Rat)) :=
      if dfc.isEmpty then
        some ([], [], kq, none)
      else
        let X := dfc.map (fun r => [cellFloat0 r.gwa, cellFloat0 r.income])
        let kOpt : Option Nat :=
          match kq with
          | some k => some k
          | none =>
            match compute_wcss_for_range X 2 10 with
            | some wcss => some (recommend_k_by_curvature knee wcss)
            | none => none
        match kOpt with
        | none => none
        | some k =>
          match kmeansFit k X with
          | none => none
          | some (preds, centroids) => some (preds, centroids, some k, some (0, 0, 0))
    match step with
    | none => (st, .error (.server "Error processing dataset"))
    | some (preds, centroids, kUsed, metrics) =>
      let st1 := uploadCommit st df kUsed preds centroids
      match metrics with
      | none =>
        (st1, .error (.server "name silhouette is not defined"))
      | some (s, dbi, chi) =>
        (st1, .ok ⟨st.nextId, df.length, kUsed, s, dbi, chi⟩)

/-!
## Student edit endpoint (`students.py update_student`)
-/

/-- The JSON body of a student edit: each editable field optional,
absent fields keep the stored value (`student_data.get(field,
student[field])`). -/
structure EditData where
  firstname : Option Cell := none
  lastname : Option Cell := none
  sex : Option Cell := none
  program : Option Cell := none
  municipality : Option Cell := none
  shs_type : Option Cell := none
  shs_origin : Option Cell := none
  gwa : Option Cell := none
  income : Option Cell := none
deriving DecidableEq, Repr

/-- The row a student edit writes back: the body merged over the stored
row, with Honors / IncomeCategory recomputed by the system. -/
def editedRow (s0 : SRow) (data : EditData) : SRow :=
  let merged : SRow :=
    { s0 with
      firstname := data.firstname.getD s0.firstname,
      lastname := data.lastname.getD s0.lastname,
      sex := data.sex.getD s0.sex,
      program := data.program.getD s0.program,
      municipality := data.municipality.getD s0.municipality,
      shs_type := data.shs_type.getD s0.shs_type,
      shs_origin := data.shs_origin.getD s0.shs_origin,
      gwa := data.gwa.getD s0.gwa,
      income := data.income.getD s0.income }
  { merged with
    honors := .str (classify_honors merged.gwa),
    incomecategory := .str (classify_income merged.income) }

/-- `SELECT k FROM clusters WHERE dataset_id = %s ORDER BY id DESC
LIMIT 1`: the most recent cluster row of the dataset, if any, and its
(nullable) `k`. -/
def lastClusterK (cs : List ClusterRow) (did : Nat) : Option (Option Nat) :=
  ((cs.filter (fun c => c.dataset_id == did)).foldl
    (fun acc c =>
      match acc with
      | none => some c
      | some b => if b.id < c.id then some c else some b)
    none).map (·.k)

/-- The `k` the edit trigger would recluster with: the latest dataset's
most recent cluster row's `k` when that row exists and its `k` is
non-null and non-zero (`if row and row.get("k")`), else 3. -/
def triggerK (st : DBState) : Nat :=
  match latestDataset st.datasets with
  | none => 3
  | some d =>
    match lastClusterK st.clusters d.id with
    | some (some kk) => if kk == 0 then 3 else kk
    | _ => 3

/-- `PUT /students/{student_id}` (`students.py`).  No role restriction:
any authenticated principal may edit.  Merges the body over the stored
row, recomputes Honors / IncomeCategory, commits the update, then — on
a fresh connection — refetches the row and, when the record flipped
from incomplete to complete, schedules `recluster(k, current_user)` as
a fire-and-forget `asyncio` task.  The task is returned as data
`(k, editor role)`, NOT executed: its later outcome can neither reach
this response nor undo the committed update.  Any failure while
scheduling is only printed. -/
def updateStudentOp (studentId : Nat) (data : EditData) (role : String)
    (st : DBState) : DBState × Except HErr String × Option (Nat × String) :=
  match st.students.find? (fun s => s.id == studentId) with
  | none => (st, .error (.notFound "Student not found"), none)
  | some s0 =>
    let updated := editedRow s0 data
    let st1 : DBState :=
      { st with students := st.students.map (fun s => if s.id == studentId then updated else s) }
    let becameComplete := !is_record_complete_row s0 && is_record_complete_row updated
    let task : Option (Nat × String) :=
      if becameComplete then some (triggerK st1, role) else none
    (st1, .ok "Student updated successfully. Reclustering triggered.", task)

/-- The store after a student edit commits: the stored row `s0` (id
`sid`) replaced by the merged-and-rederived `editedRow s0 data`. -/
def editCommit (st : DBState) (sid : Nat) (s0 : SRow) (data : EditData) : DBState :=
  { st with
    students := st.students.map (fun s => if s.id == sid then editedRow s0 data else s) }

/-!
## Concrete fixtures (used by witnesses and counterexamples)
-/

/-- A complete student row of dataset 1. -/
def rowOK (i : Nat) : SRow :=
  { id := i, dataset_id := 1,
    firstname := .str "Ana", lastname := .str "Cruz", sex := .str "F",
    program := .str "BSCS", municipality := .str "Naga",
    shs_type := .str "Public", shs_origin := .str "CNHS",
    gwa := .num 88, income := .num 15000,
    honors := .str "None", incomecategory := .str "Middle" }

/-- The same row with a missing income: incomplete. -/
def rowNI (i : Nat) : SRow :=
  { rowOK i with income := .null }

/-- A store holding one dataset (id 1) with three students — two
complete (ids 2, 3), one incomplete (id 4) — and one prior cluster run
(id 5, k = 2) with its two assignment rows. -/
def stBase : DBState :=
  { datasets := [⟨1, 1, true⟩],
    students := [rowOK 2, rowOK 3, rowNI 4],
    clusters := [⟨5, 1, some 2, [[86, 14000], [90, 16000]]⟩],
    student_cluster := [⟨2, 5, 0⟩, ⟨3, 5, 1⟩],
    nextId := 6 }

/-- A store for the edit-trigger scenario: dataset 1 with three
complete students and one incomplete (id 10), and no cluster run. -/
def stEdit : DBState :=
  { datasets := [⟨1, 1, true⟩],
    students := [rowOK 2, rowOK 3, rowOK 4, rowNI 10],
    clusters := [],
    student_cluster := [],
    nextId := 11 }

/-- The edit body that fills in the missing income of `rowNI`. -/
def editFillIncome : EditData := { income := some (.num 12000) }

/-- An empty store. -/
def stEmpty : DBState :=
  { datasets := [], students := [], clusters := [], student_cluster := [], nextId := 1 }

/-- The ten-row sheet of the end-to-end scenario: eight complete rows,
two with a missing income. -/
def sheet10 : List SRow :=
  [rowOK 0, rowOK 0, rowNI 0, rowOK 0, rowOK 0,
   rowNI 0, rowOK 0, rowOK 0, rowOK 0, rowOK 0]

/-!
## Helper lemmas
-/

lemma enumFrom_complete_length (rows : List SRow) (n : Nat) :
    ((rows.enumFrom n).filterMap
        (fun p => if is_record_complete_row p.2 then some p.1 else none)).length
      = (rows.filter is_record_complete_row).length := by
  induction rows generalizing n with
  | nil => simp
  | cons a l ih =>
    by_cases hc : is_record_complete_row a <;>
      simp [List.enumFrom_cons, List.filterMap_cons, hc, List.filter_cons, ih]

lemma completeIdx_length (rows : List SRow) :
    (completeIdx rows).length = (filter_complete_students_df rows).length := by
  unfold completeIdx filter_complete_students_df
  exact enumFrom_complete_length rows 0

lemma mem_completeIdx {rows : List SRow} {i : Nat} :
    i ∈ completeIdx rows ↔
      i < rows.length ∧ is_record_complete_row (rows.getD i {}) = true := by
  unfold completeIdx
  rw [List.mem_filterMap]
  constructor
  · rintro ⟨⟨j, x⟩, hmem, hfx⟩
    by_cases hc : is_record_complete_row x
    · simp only [hc, if_true, Option.some.injEq] at hfx
      subst hfx
      rw [List.mem_enum_iff_getElem?] at hmem
      have hj : j < rows.length := by
        by_contra hge
        rw [List.getElem?_eq_none (by omega)] at hmem
        exact Option.noConfusion hmem
      refine ⟨hj, ?_⟩
      have : rows.getD j {} = x := by
        rw [List.getD_eq_getElem?_getD, hmem]; rfl
      rw [this]; exact hc
    · simp [hc] at hfx
  · rintro ⟨hlt, hc⟩
    refine ⟨(i, rows.getD i {}), ?_, ?_⟩
    · rw [List.mem_enum_iff_getElem?, List.getD_eq_getElem?_getD,
        List.getElem?_eq_getElem hlt]
      rfl
    · simp only [hc, if_true]

lemma indexOf?_some_lt {l : List Nat} {a pos : Nat}
    (h : l.indexOf? a = some pos) : pos < l.length := by
  induction l generalizing pos with
  | nil => simp [List.indexOf?] at h
  | cons b t ih =>
    simp only [List.indexOf?, List.findIdx?_cons, List.findIdx?_succ] at h
    by_cases hb : (b == a)
    · simp only [hb, if_true] at h
      simp only [Option.some.injEq] at h
      simp [← h]
    · simp only [hb, if_false] at h
      rcases Option.map_eq_some'.mp h with ⟨p, hp, hpe⟩
      have := ih (by simpa [List.indexOf?] using hp)
      simp only [List.length_cons]; omega

lemma mem_indexOf?_some {l : List Nat} {a : Nat} (h : a ∈ l) :
    ∃ pos, l.indexOf? a = some pos ∧ pos < l.length := by
  induction l with
  | nil => simp at h
  | cons b t ih =>
    by_cases hb : (b == a)
    · exact ⟨0, by simp [List.indexOf?, List.findIdx?_cons, hb], by simp⟩
    · have ha : a ∈ t := by
        rcases List.mem_cons.mp h with h1 | h1
        · exact absurd (by simp [h1]) hb
        · exact h1
      obtain ⟨pos, hp, hlt⟩ := ih ha
      refine ⟨pos + 1, ?_, by simpa using Nat.succ_lt_succ hlt⟩
      simp only [List.indexOf?, List.findIdx?_cons] at hp ⊢
      simp [hb, hp]

lemma not_mem_indexOf?_none {l : List Nat} {a : Nat} (h : a ∉ l) :
    l.indexOf? a = none := by
  rw [List.indexOf?_eq_none_iff]
  intro x hx
  simp only [beq_iff_eq]
  intro he; exact h (he ▸ hx)

lemma reclusterX_length (students : List SRow) :
    (reclusterX students).length
      = (filter_complete_students_df students).length := by
  unfold reclusterX
  rw [List.length_map]
  exact completeIdx_length students

lemma kmeansFit_some {k : Nat} {rows : List (List Rat)}
    (h : kmeansFitOk k rows = true) :
    kmeansFit k rows
      = some ((List.range rows.length).map (fun i => i % k),
              (List.range k).map (fun _ => (rows.headD []).map (fun _ => (0 : Rat)))) := by
  simp [kmeansFit, h]

lemma kmeansFit_shape {k : Nat} {rows : List (List Rat)}
    {preds : List Nat} {cents : List (List Rat)}
    (h : kmeansFit k rows = some (preds, cents)) :
    preds.length = rows.length ∧ (∀ l ∈ preds, l < k) ∧ cents.length = k := by
  unfold kmeansFit at h
  by_cases hok : kmeansFitOk k rows
  · have h1 : (1 : Nat) ≤ k := by
      have := hok
      simp only [kmeansFitOk, Bool.and_eq_true, decide_eq_true_eq] at this
      exact this.1
    simp only [hok, if_true, Option.some.injEq, Prod.mk.injEq] at h
    obtain ⟨hp, hc⟩ := h
    refine ⟨by rw [← hp]; simp, ?_, by rw [← hc]; simp⟩
    intro l hl
    rw [← hp] at hl
    rcases List.mem_map.mp hl with ⟨i, _, rfl⟩
    exact Nat.mod_lt i (by omega)
  · simp [hok] at h

lemma labelEncode_card (vals : List String) :
    (labelEncodeCol vals).toFinset.card = vals.toFinset.card := by
  unfold labelEncodeCol
  have himg : (vals.map (fun v => vals.dedup.indexOf v)).toFinset
      = vals.toFinset.image (fun v => vals.dedup.indexOf v) := by
    ext x; simp
  rw [himg]
  apply Finset.card_image_of_injOn
  intro a ha b hb hab
  rw [Finset.mem_coe, List.mem_toFinset] at ha hb
  have ha2 : a ∈ vals.dedup := List.mem_dedup.mpr ha
  have hb2 : b ∈ vals.dedup := List.mem_dedup.mpr hb
  have hal : vals.dedup.indexOf a < vals.dedup.length := List.indexOf_lt_length.mpr ha2
  have hbl : vals.dedup.indexOf b < vals.dedup.length := List.indexOf_lt_length.mpr hb2
  have hfin : (⟨vals.dedup.indexOf a, hal⟩ : Fin vals.dedup.length)
      = ⟨vals.dedup.indexOf b, hbl⟩ := Fin.ext hab
  rw [← List.indexOf_get hal, ← List.indexOf_get hbl, hfin]

/-!
## Claims
-/

/-- C7: for every WCSS curve computed over k ∈ [2, k_max] (default
2..10), the recommender is total (detector failure is the `none`
outcome and degrades to the deterministic fallback
`max(2, min(5, len(curve) // 2))`), and — granted the detector's
contract that a reported knee is one of the x-values it was given —
the recommended k always lies within [2, k_max]. -/
theorem recommend_k_within_range (knee : Option Nat) (rows : List (List Rat))
    (kmax : Nat) (wcss : List Rat)
    (hw : compute_wcss_for_range rows 2 kmax = some wcss)
    (h2 : 2 ≤ kmax)
    (hknee : ∀ j, knee = some j → 2 ≤ j ∧ j ≤ kmax) :
    (knee = none →
        recommend_k_by_curvature knee wcss = max 2 (min 5 (wcss.length / 2)))
  ∧ 2 ≤ recommend_k_by_curvature knee wcss
  ∧ recommend_k_by_curvature knee wcss ≤ kmax := by
  have hlen : wcss.length = kmax - 1 := by
    simp only [compute_wcss_for_range] at hw
    split_ifs at hw with hall
    · have := (Option.some.injEq _ _).mp hw
      rw [← this]
      simp only [List.length_map, List.length_range]
      omega
  cases knee with
  | some j =>
    have hj := hknee j rfl
    simp only [recommend_k_by_curvature]
    exact ⟨fun h => Option.noConfusion h, hj.1, hj.2⟩
  | none =>
    refine ⟨fun _ => rfl, ?_, ?_⟩ <;>
      · simp only [recommend_k_by_curvature, hlen]
        omega

/-- Witness for C7 at a concrete curve (k range 2..2, two samples). -/
theorem recommend_k_within_range_witness :
    (none = (none : Option Nat) →
        recommend_k_by_curvature none [(0 : Rat)]
          = max 2 (min 5 ([(0 : Rat)].length / 2)))
  ∧ 2 ≤ recommend_k_by_curvature none [(0 : Rat)]
  ∧ recommend_k_by_curvature none [(0 : Rat)] ≤ 2 :=
  recommend_k_within_range none [[0], [1]] 2 [0] (by decide) (by decide)
    (fun j hj => Option.noConfusion hj)

/-- C6 counterexample: in `encode_categorical_safe` the null/blank
coercion claimed by the spec does not happen — `astype(str)` stringifies
a missing value to `"None"` (and leaves `""` as is) before `fillna`
runs, so `"Unknown"` is never introduced; a null cell and a literal
`"Unknown"` cell receive DIFFERENT codes, whereas the claimed coercion
(realized only in `normalize_and_prepare_df`) would merge them. -/
theorem encode_null_coercion_cex :
    encode_categorical_safe_col [Cell.null, Cell.str "Unknown"] = [0, 1]
  ∧ coerceClustersCell Cell.null = "None"
  ∧ coerceClustersCell (Cell.str "") = ""
  ∧ normalize_encode_col [Cell.null, Cell.str "Unknown"] = [0, 0] := by
  decide

/-- C6 amended: for every input column and either encoder, the `_enc`
column carries exactly as many distinct integer codes as there are
distinct coerced string values; the coercion maps null/blank to
`"Unknown"` only in `normalize_and_prepare_df`, while
`encode_categorical_safe` coerces by `astype(str)` (null ↦ `"None"`,
blank unchanged); the encoder is total and its manual fallback path
produces the same first-seen value-to-index codes. -/
theorem encoder_distinct_codes (cells : List Cell) :
    (encode_categorical_safe_col cells).toFinset.card
        = (cells.map coerceClustersCell).toFinset.card
  ∧ (normalize_encode_col cells).toFinset.card
        = (cells.map coerceDatasetsCell).toFinset.card
  ∧ fallbackEncodeCol (cells.map coerceClustersCell)
        = encode_categorical_safe_col cells := by
  refine ⟨?_, ?_, rfl⟩
  · exact labelEncode_card (cells.map coerceClustersCell)
  · exact labelEncode_card (cells.map coerceDatasetsCell)

/-- C10: the upload loop persists every required text field through
`safe_text` — null / blank / case-insensitive-sentinel values become
the literal `"Incomplete"`, anything else its stripped string — and
every gwa / income through `safe_num` — null / blank / sentinel /
unparseable values become the numeric sentinel `-1`, anything else its
float value; the stored row holds a string or number for every such
field, never a null. -/
theorem upload_field_sanitization (v : Cell) (r : SRow) (i did : Nat) :
    ((v.isna || pyStrip v.pyStr == "" || sentinelList.contains (pyLower v.pyStr)) = true →
        safe_text v = "Incomplete")
  ∧ ((v.isna || pyStrip v.pyStr == "" || sentinelList.contains (pyLower v.pyStr)) = false →
        safe_text v = pyStrip v.pyStr)
  ∧ ((v.isna || pyStrip v.pyStr == "" || sentinelList.contains (pyLower v.pyStr)) = true →
        safe_num v = -1)
  ∧ (cellFloat? v = none → safe_num v = -1)
  ∧ (∀ q, cellFloat? v = some q →
        (v.isna || pyStrip v.pyStr == "" || sentinelList.contains (pyLower v.pyStr)) = false →
        safe_num v = q)
  ∧ (storedStudent i did r).firstname = .str (safe_text r.firstname)
  ∧ (storedStudent i did r).lastname = .str (safe_text r.lastname)
  ∧ (storedStudent i did r).sex = .str (safe_text r.sex)
  ∧ (storedStudent i did r).program = .str (safe_text r.program)
  ∧ (storedStudent i did r).municipality = .str (safe_text r.municipality)
  ∧ (storedStudent i did r).shs_type = .str (safe_text r.shs_type)
  ∧ (storedStudent i did r).shs_origin = .str (safe_text r.shs_origin)
  ∧ (storedStudent i did r).honors = .str (safe_text r.honors)
  ∧ (storedStudent i did r).incomecategory = .str (safe_text r.incomecategory)
  ∧ (storedStudent i did r).gwa = .num (safe_num r.gwa)
  ∧ (storedStudent i did r).income = .num (safe_num r.income) := by
  refine ⟨?_, ?_, ?_, ?_, ?_, rfl, rfl, rfl, rfl, rfl, rfl, rfl, rfl, rfl, rfl, rfl⟩
  · intro h; unfold safe_text; exact if_pos h
  · intro h; unfold safe_text; exact if_neg (by rw [h]; exact Bool.false_ne_true)
  · intro h; unfold safe_num; exact if_pos h
  · intro h
    unfold safe_num
    split_ifs with hc
    · rfl
    · rw [h]
  · intro q hq h
    unfold safe_num
    rw [if_neg (by rw [h]; exact Bool.false_ne_true), hq]

/-- Witness for C10 at concrete sentinel, unparseable and numeric
cells. -/
theorem upload_field_sanitization_witness :
    safe_text (Cell.str "N/A") = "Incomplete"
  ∧ safe_num (Cell.str "abc") = -1
  ∧ safe_num (Cell.num 15000) = 15000
  ∧ safe_num Cell.null = -1 := by
  obtain ⟨t1, -, -, n4, -, -⟩ := upload_field_sanitization (Cell.str "N/A") {} 0 0
  obtain ⟨-, -, -, n1, -, -⟩ := upload_field_sanitization (Cell.str "abc") {} 0 0
  obtain ⟨-, -, -, -, n2, -⟩ := upload_field_sanitization (Cell.num 15000) {} 0 0
  obtain ⟨-, -, n3, -, -, -⟩ := upload_field_sanitization Cell.null {} 0 0
  exact ⟨t1 (by decide), n1 (by decide), n2 15000 (by decide) (by decide), n3 (by decide)⟩

/-- C9: preview-mode clustering (the playground endpoint for any role,
and the Viewer branch of the recluster endpoint) never mutates the
store — every path returns it untouched — and calling either twice with
identical inputs and no intervening official recluster yields identical
output. -/
theorem preview_frame (k : Nat) (role : String) (st : DBState) :
    (playgroundOp k role st).1 = st
  ∧ (reclusterOp k "Viewer" st).1 = st
  ∧ playgroundOp k role ((playgroundOp k role st).1) = playgroundOp k role st
  ∧ reclusterOp k "Viewer" ((reclusterOp k "Viewer" st).1)
      = reclusterOp k "Viewer" st := by
  have hp : (playgroundOp k role st).1 = st := by
    unfold playgroundOp
    repeat (first | rfl | split | dsimp only)
  have hr : (reclusterOp k "Viewer" st).1 = st := by
    unfold reclusterOp
    repeat (first | rfl | split | dsimp only)
    all_goals simp_all
    all_goals (repeat (first | rfl | split | dsimp only))
  exact ⟨hp, hr, by rw [hp], by rw [hr]⟩

lemma reclusterOp_run (k : Nat) (role : String) (st : DBState) (d : DatasetRow)
    (preds : List Nat) (cents : List (List Rat))
    (hd : latestDataset st.datasets = some d)
    (h2 : ¬(k < 2))
    (hne : (dstudents st d.id).isEmpty = false)
    (hklen : ¬((dstudents st d.id).length < k))
    (hfit : kmeansFit k (reclusterX (dstudents st d.id)) = some (preds, cents)) :
    reclusterOp k role st =
      (if role == "Admin" then
        (officialReplace st d.id k
          ((filter_complete_students_df (dstudents st d.id)).map (·.id)) preds cents,
         true, .ok (.official "Official dataset re-clustered"))
      else if role == "Viewer" then
        (st, true,
         .ok (.preview ((filter_complete_students_df (dstudents st d.id)).zip preds) cents))
      else (st, true, .error (.forbidden "Unauthorized role"))) := by
  unfold reclusterOp
  rw [if_neg h2, hd]
  simp only [hne, Bool.false_eq_true, if_false]
  rw [if_neg hklen]
  simp only [hfit]

lemma officialReplace_clusters (st : DBState) (did k : Nat) (ids preds : List Nat)
    (cents : List (List Rat)) :
    (officialReplace st did k ids preds cents).clusters.filter
        (fun c => c.dataset_id == did)
      = [⟨st.nextId, did, some k, cents⟩] := by
  unfold officialReplace
  simp [List.filter_append, List.filter_filter]

lemma officialReplace_sc (st : DBState) (did k : Nat) (ids preds : List Nat)
    (cents : List (List Rat)) :
    ∀ sc ∈ (officialReplace st did k ids preds cents).student_cluster,
      (sc ∈ st.student_cluster
        ∧ ∀ c ∈ st.clusters, c.dataset_id = did → sc.cluster_id ≠ c.id)
      ∨ (sc.cluster_id = st.nextId ∧ sc.student_id ∈ ids) := by
  intro sc hsc
  unfold officialReplace at hsc
  simp only [List.mem_append] at hsc
  rcases hsc with hold | hnew
  · left
    have hmem := List.mem_filter.mp hold
    refine ⟨hmem.1, ?_⟩
    intro c hc hcd heq
    have hcin : c ∈ st.clusters.filter (fun c => c.dataset_id == did) :=
      List.mem_filter.mpr ⟨hc, by simp [hcd]⟩
    have hidin : sc.cluster_id
        ∈ (st.clusters.filter (fun c => c.dataset_id == did)).map (·.id) :=
      List.mem_map.mpr ⟨c, hcin, heq.symm⟩
    have hcf := hmem.2
    simp only [Bool.not_eq_eq_eq_not, Bool.not_true] at hcf
    exact Bool.noConfusion ((List.elem_eq_true_of_mem hidin).symm.trans hcf)
  · right
    rcases List.mem_map.mp hnew with ⟨p, hp, rfl⟩
    exact ⟨rfl, (List.of_mem_zip hp).1⟩

/-- C1: an Admin-initiated official recluster of a dataset deletes
every prior cluster run of that dataset and all of their assignment
rows before inserting the fresh run and its assignments: afterwards the
dataset has exactly the new run, no assignment row references any prior
run of the dataset, and every assignment row referencing one of the
dataset's students belongs to the newly inserted run. -/
theorem recluster_official_replace (k : Nat) (st : DBState) (d : DatasetRow)
    (preds : List Nat) (cents : List (List Rat))
    (hd : latestDataset st.datasets = some d)
    (h2 : ¬(k < 2))
    (hne : (dstudents st d.id).isEmpty = false)
    (hklen : ¬((dstudents st d.id).length < k))
    (hfit : kmeansFit k (reclusterX (dstudents st d.id)) = some (preds, cents))
    (hfresh : ∀ c ∈ st.clusters, c.id < st.nextId)
    (hinv : ∀ sc ∈ st.student_cluster,
        (∃ s ∈ st.students, s.id = sc.student_id ∧ s.dataset_id = d.id) →
        ∃ c ∈ st.clusters, c.id = sc.cluster_id ∧ c.dataset_id = d.id) :
    (reclusterOp k "Admin" st).2.2 = .ok (.official "Official dataset re-clustered")
  ∧ (reclusterOp k "Admin" st).1.clusters.filter (fun c => c.dataset_id == d.id)
      = [⟨st.nextId, d.id, some k, cents⟩]
  ∧ (∀ sc ∈ (reclusterOp k "Admin" st).1.student_cluster,
      ∀ c ∈ st.clusters, c.dataset_id = d.id → sc.cluster_id ≠ c.id)
  ∧ (∀ sc ∈ (reclusterOp k "Admin" st).1.student_cluster,
      (∃ s ∈ st.students, s.id = sc.student_id ∧ s.dataset_id = d.id) →
      sc.cluster_id = st.nextId) := by
  have hrun := reclusterOp_run k "Admin" st d preds cents hd h2 hne hklen hfit
  simp only [beq_self_eq_true, if_true] at hrun
  rw [hrun]
  refine ⟨rfl, officialReplace_clusters st d.id k _ preds cents, ?_, ?_⟩
  · intro sc hsc c hc hcd
    rcases officialReplace_sc st d.id k _ preds cents sc hsc with
      ⟨_, hno⟩ | ⟨hcid, _⟩
    · exact hno c hc hcd
    · intro he
      have := hfresh c hc
      rw [← he, hcid] at this
      exact lt_irrefl _ this
  · intro sc hsc hstu
    rcases officialReplace_sc st d.id k _ preds cents sc hsc with
      ⟨hmem, hno⟩ | ⟨hcid, _⟩
    · obtain ⟨c, hc, hcid, hcd⟩ := hinv sc hmem hstu
      exact absurd hcid.symm (hno c hc hcd)
    · exact hcid

/-- Witness for C1 on a concrete store with one prior run (id 5): after
the official recluster with k = 2, dataset 1 holds exactly the new run
(id 6) and every assignment row of its students points at it. -/
theorem recluster_official_replace_witness :
    (reclusterOp 2 "Admin" stBase).2.2 = .ok (.official "Official dataset re-clustered")
  ∧ (reclusterOp 2 "Admin" stBase).1.clusters.filter (fun c => c.dataset_id == 1)
      = [⟨6, 1, some 2, [[0, 0, 0, 0, 0, 0, 0], [0, 0, 0, 0, 0, 0, 0]]⟩]
  ∧ (∀ sc ∈ (reclusterOp 2 "Admin" stBase).1.student_cluster,
      ∀ c ∈ stBase.clusters, c.dataset_id = 1 → sc.cluster_id ≠ c.id)
  ∧ (∀ sc ∈ (reclusterOp 2 "Admin" stBase).1.student_cluster,
      (∃ s ∈ stBase.students, s.id = sc.student_id ∧ s.dataset_id = 1) →
      sc.cluster_id = 6) :=
  recluster_official_replace 2 stBase ⟨1, 1, true⟩ [0, 1]
    [[0, 0, 0, 0, 0, 0, 0], [0, 0, 0, 0, 0, 0, 0]]
    (by decide) (by decide) (by decide) (by decide) (by decide) (by decide) (by decide)

lemma playgroundOp_run (k : Nat) (role : String) (st : DBState) (d : DatasetRow)
    (hd : latestDataset st.datasets = some d)
    (h2 : 2 ≤ k) (h10 : k ≤ 10)
    (hrole : (role == "Admin" || role == "Viewer") = true)
    (hne : (dstudents st d.id).isEmpty = false) :
    playgroundOp k role st =
      (if (dstudents st d.id).length < k then
        (st, .error (.badRequest "k cannot be greater than the number of students"))
      else if (filter_complete_students_df (dstudents st d.id)).isEmpty then
        (st, .error (.badRequest "No complete students available for clustering"))
      else
        match kmeansFit k ((filter_complete_students_df (dstudents st d.id)).map
            (fun r => [cellFloat0 r.gwa, cellFloat0 r.income])) with
        | none => (st, .error (.server "KMeans failed on the filtered sample"))
        | some (preds, cents) =>
          (st, .ok ((filter_complete_students_df (dstudents st d.id)).zip preds, cents))) := by
  unfold playgroundOp
  rw [if_neg (by simp only [Bool.or_eq_true, decide_eq_true_eq]; omega)]
  rw [if_neg (by simp [hrole])]
  rw [hd]
  simp only [hne, Bool.false_eq_true, if_false]

lemma isEmpty_false_of_length_pos {l : List SRow} (h : 0 < l.length) :
    l.isEmpty = false := by
  cases l with
  | nil => simp at h
  | cons a t => rfl

/-- C2 counterexample: on `stBase` the latest dataset has 3 student
rows, only 2 of them complete.  Requesting k = 3 passes the endpoints'
validation — which compares k against the TOTAL row count, not the
complete count — and then the clustering computation itself fails,
surfacing a server error, not the claimed INVALID_PARAMETER rejection
issued before any computation. -/
theorem k_validation_cex :
    (filter_complete_students_df (dstudents stBase 1)).length = 2
  ∧ (dstudents stBase 1).length = 3
  ∧ (reclusterOp 3 "Admin" stBase).2.2
      = .error (.server "KMeans failed on the filtered sample")
  ∧ (playgroundOp 3 "Admin" stBase).2
      = .error (.server "KMeans failed on the filtered sample") :=
  ⟨by decide, by decide, rfl, rfl⟩

/-- C2 amended: for recluster and playground requests, validation —
before any clustering computation — rejects a k exceeding the TOTAL
number of student rows of the latest dataset (the playground moreover
rejects k outside 2..10 up front); with 2 ≤ k ≤ (number of complete
records) the request succeeds; and with complete-count < k ≤ total
count, validation passes and the k-means computation itself fails,
surfacing as a server error rather than a validation error. -/
theorem k_validation_amended (k : Nat) (st : DBState) (d : DatasetRow) (role : String)
    (hd : latestDataset st.datasets = some d)
    (hne : (dstudents st d.id).isEmpty = false)
    (h2 : 2 ≤ k) :
    ((dstudents st d.id).length < k →
        reclusterOp k role st
          = (st, false,
             .error (.badRequest "k cannot be greater than number of students")))
  ∧ (k ≤ (filter_complete_students_df (dstudents st d.id)).length →
        ∃ preds cents,
          reclusterOp k "Admin" st
            = (officialReplace st d.id k
                ((filter_complete_students_df (dstudents st d.id)).map (·.id)) preds cents,
               true, .ok (.official "Official dataset re-clustered")))
  ∧ (k ≤ 10 → (dstudents st d.id).length < k →
        playgroundOp k "Admin" st
          = (st, .error (.badRequest "k cannot be greater than the number of students")))
  ∧ (k ≤ 10 → k ≤ (filter_complete_students_df (dstudents st d.id)).length →
        ∃ out cents, playgroundOp k "Admin" st = (st, .ok (out, cents)))
  ∧ ((filter_complete_students_df (dstudents st d.id)).length < k →
        ¬((dstudents st d.id).length < k) →
        reclusterOp k "Admin" st
          = (st, false, .error (.server "KMeans failed on the filtered sample"))) := by
  refine ⟨?_, ?_, ?_, ?_, ?_⟩
  · intro hlt
    unfold reclusterOp
    rw [if_neg (by omega), hd]
    simp only [hne, Bool.false_eq_true, if_false]
    rw [if_pos hlt]
  · intro hkc
    have hklen : ¬((dstudents st d.id).length < k) := by
      have := List.length_filter_le is_record_complete_row (dstudents st d.id)
      have h2' := hkc
      unfold filter_complete_students_df at h2'
      omega
    have hok : kmeansFitOk k (reclusterX (dstudents st d.id)) = true := by
      unfold kmeansFitOk
      rw [reclusterX_length]
      simp only [Bool.and_eq_true, decide_eq_true_eq]
      omega
    have hfit := kmeansFit_some hok
    have hrun2 : reclusterOp k "Admin" st
        = (officialReplace st d.id k
            ((filter_complete_students_df (dstudents st d.id)).map (·.id))
            ((List.range (reclusterX (dstudents st d.id)).length).map (fun i => i % k))
            ((List.range k).map
              (fun _ => ((reclusterX (dstudents st d.id)).headD []).map (fun _ => (0 : Rat)))),
           true, .ok (.official "Official dataset re-clustered")) := by
      simpa only [beq_self_eq_true, if_true]
        using reclusterOp_run k "Admin" st d _ _ hd (by omega) hne hklen hfit
    exact ⟨_, _, hrun2⟩
  · intro h10 hlt
    rw [playgroundOp_run k "Admin" st d hd h2 h10 (by decide) hne]
    rw [if_pos hlt]
  · intro h10 hkc
    have hklen : ¬((dstudents st d.id).length < k) := by
      have := List.length_filter_le is_record_complete_row (dstudents st d.id)
      have h2' := hkc
      unfold filter_complete_students_df at h2'
      omega
    have hdfc : (filter_complete_students_df (dstudents st d.id)).isEmpty = false :=
      isEmpty_false_of_length_pos (by omega)
    have hok : kmeansFitOk k ((filter_complete_students_df (dstudents st d.id)).map
        (fun r => [cellFloat0 r.gwa, cellFloat0 r.income])) = true := by
      unfold kmeansFitOk
      rw [List.length_map]
      simp only [Bool.and_eq_true, decide_eq_true_eq]
      omega
    have hfit := kmeansFit_some hok
    rw [playgroundOp_run k "Admin" st d hd h2 h10 (by decide) hne]
    rw [if_neg hklen]
    simp only [hdfc, Bool.false_eq_true, if_false, hfit]
    exact ⟨_, _, rfl⟩
  · intro hover hklen
    have hnofit : kmeansFit k (reclusterX (dstudents st d.id)) = none := by
      unfold kmeansFit kmeansFitOk
      rw [reclusterX_length]
      have : ¬(1 ≤ k ∧ k ≤ (filter_complete_students_df (dstudents st d.id)).length) := by
        omega
      simp only [Bool.and_eq_true, decide_eq_true_eq, this, if_false]
    unfold reclusterOp
    rw [if_neg (by omega), hd]
    simp only [hne, Bool.false_eq_true, if_false]
    rw [if_neg hklen]
    simp only [hnofit]

/-- Witness for C2 (amended) on `stBase`: k = 4 exceeds the 3 stored
rows and is rejected by validation with the store untouched, while
k = 2 (the complete-record count) succeeds officially. -/
theorem k_validation_amended_witness :
    reclusterOp 4 "Admin" stBase
      = (stBase, false,
         .error (.badRequest "k cannot be greater than number of students"))
  ∧ ∃ preds cents,
      reclusterOp 2 "Admin" stBase
        = (officialReplace stBase 1 2
            ((filter_complete_students_df (dstudents stBase 1)).map (·.id)) preds cents,
           true, .ok (.official "Official dataset re-clustered")) :=
  ⟨(k_validation_amended 4 stBase ⟨1, 1, true⟩ "Admin" (by decide) (by decide)
      (by decide)).1 (by decide),
   (k_validation_amended 2 stBase ⟨1, 1, true⟩ "Admin" (by decide) (by decide)
      (by decide)).2.1 (by decide)⟩

/-- C5 counterexample: a recluster request by role `"Student"` (outside
{Admin, Viewer}) IS rejected with an authorization error, but only
AFTER the k-means computation already ran (the computed flag is true):
the rejection does not precede the clustering computation as claimed. -/
theorem role_rejection_cex :
    (reclusterOp 2 "Student" stBase).2.1 = true
  ∧ (reclusterOp 2 "Student" stBase).2.2 = .error (.forbidden "Unauthorized role") :=
  ⟨rfl, rfl⟩

/-- C5 amended: a clustering request by a role outside {Admin, Viewer}
is rejected with an authorization error and touches no persisted state;
the playground endpoint rejects before any computation or store access,
but the recluster endpoint runs the full clustering computation first
and rejects the role only afterwards. -/
theorem role_rejection_amended (k : Nat) (role : String) (st : DBState)
    (hA : role ≠ "Admin") (hV : role ≠ "Viewer") :
    (2 ≤ k → k ≤ 10 →
        playgroundOp k role st = (st, .error (.forbidden "Unauthorized role")))
  ∧ (reclusterOp k role st).1 = st
  ∧ (∀ d preds cents, latestDataset st.datasets = some d →
      (dstudents st d.id).isEmpty = false →
      ¬((dstudents st d.id).length < k) → ¬(k < 2) →
      kmeansFit k (reclusterX (dstudents st d.id)) = some (preds, cents) →
      reclusterOp k role st = (st, true, .error (.forbidden "Unauthorized role"))) := by
  have hbA : (role == "Admin") = false := beq_eq_false_iff_ne.mpr hA
  have hbV : (role == "Viewer") = false := beq_eq_false_iff_ne.mpr hV
  refine ⟨?_, ?_, ?_⟩
  · intro h2 h10
    unfold playgroundOp
    rw [if_neg (by simp only [Bool.or_eq_true, decide_eq_true_eq]; omega)]
    rw [if_pos (by simp [hbA, hbV])]
  · unfold reclusterOp
    repeat (first | rfl | split | dsimp only)
    all_goals simp_all
    all_goals (repeat (first | rfl | split | dsimp only))
  · intro d preds cents hd hne hklen h2 hfit
    have hrun := reclusterOp_run k role st d preds cents hd h2 hne hklen hfit
    rw [hrun, if_neg (by simp [hbA]), if_neg (by simp [hbV])]

/-- Witness for C5 (amended) with the concrete role `"Student"` on
`stBase`. -/
theorem role_rejection_amended_witness :
    (2 ≤ 2 → 2 ≤ 10 →
        playgroundOp 2 "Student" stBase
          = (stBase, .error (.forbidden "Unauthorized role")))
  ∧ (reclusterOp 2 "Student" stBase).1 = stBase
  ∧ (∀ d preds cents, latestDataset stBase.datasets = some d →
      (dstudents stBase d.id).isEmpty = false →
      ¬((dstudents stBase d.id).length < 2) → ¬(2 < 2) →
      kmeansFit 2 (reclusterX (dstudents stBase d.id)) = some (preds, cents) →
      reclusterOp 2 "Student" stBase
        = (stBase, true, .error (.forbidden "Unauthorized role"))) :=
  role_rejection_amended 2 "Student" stBase (by decide) (by decide)

lemma reclusterOp_viewer_frame (k : Nat) (st : DBState) :
    (reclusterOp k "Viewer" st).1 = st := by
  unfold reclusterOp
  repeat (first | rfl | split | dsimp only)
  all_goals simp_all
  all_goals (repeat (first | rfl | split | dsimp only))

/-- C4 counterexample: a Viewer's edit that flips student 10 from
incomplete to complete schedules the recluster task with the VIEWER's
own principal (k = 3, no prior run), and executing that task leaves the
store untouched — the Viewer branch of recluster is a non-persisting
preview — so the scheduled re-cluster is not an OFFICIAL (persisting)
one as claimed. -/
theorem update_trigger_cex :
    (updateStudentOp 10 editFillIncome "Viewer" stEdit).2.2 = some (3, "Viewer")
  ∧ (reclusterOp 3 "Viewer" (updateStudentOp 10 editFillIncome "Viewer" stEdit).1).1
      = (updateStudentOp 10 editFillIncome "Viewer" stEdit).1 :=
  ⟨rfl, reclusterOp_viewer_frame 3 _⟩

/-- C4 amended: an edit that flips a student from incomplete to
complete commits the update, returns the fixed success message
(independent of anything the trigger may later do), and schedules a
fire-and-forget re-cluster of the LATEST dataset carrying the editor's
own principal and k = the latest dataset's most recent cluster run's k
when present and non-null (3 otherwise, via `triggerK`); the task is
persisting (official) only when the editor is an Admin — executed under
a Viewer principal it leaves the store untouched — and its outcome can
neither reach the editor's response nor undo the committed edit. -/
theorem update_trigger_amended (sid : Nat) (data : EditData) (role : String)
    (st : DBState) (s0 : SRow)
    (hfind : st.students.find? (fun s => s.id == sid) = some s0)
    (hwas : is_record_complete_row s0 = false)
    (hnow : is_record_complete_row (editedRow s0 data) = true) :
    updateStudentOp sid data role st
      = (editCommit st sid s0 data,
         .ok "Student updated successfully. Reclustering triggered.",
         some (triggerK (editCommit st sid s0 data), role))
  ∧ (reclusterOp (triggerK (editCommit st sid s0 data)) "Viewer"
        (editCommit st sid s0 data)).1
      = editCommit st sid s0 data := by
  constructor
  · unfold updateStudentOp editCommit
    rw [hfind]
    simp only [hwas, hnow, Bool.not_false, Bool.true_and, if_true]
  · exact reclusterOp_viewer_frame _ _

/-- Witness for C4 (amended): the concrete Viewer edit on `stEdit`. -/
theorem update_trigger_amended_witness :
    updateStudentOp 10 editFillIncome "Viewer" stEdit
      = (editCommit stEdit 10 (rowNI 10) editFillIncome,
         .ok "Student updated successfully. Reclustering triggered.",
         some (triggerK (editCommit stEdit 10 (rowNI 10) editFillIncome), "Viewer"))
  ∧ (reclusterOp (triggerK (editCommit stEdit 10 (rowNI 10) editFillIncome)) "Viewer"
        (editCommit stEdit 10 (rowNI 10) editFillIncome)).1
      = editCommit stEdit 10 (rowNI 10) editFillIncome :=
  update_trigger_amended 10 editFillIncome "Viewer" stEdit (rowNI 10)
    (by decide) (by decide) (by decide)

lemma getD_map_const (n i : Nat) (c : Int) :
    (((List.range n).map (fun _ => c)).getD i c) = c := by
  rw [List.getD_eq_getElem?_getD, List.getElem?_map]
  cases (List.range n)[i]? <;> rfl

lemma uploadClusterCol_nil (rows : List SRow)
    (hci : completeIdx rows = []) :
    uploadClusterCol rows [] = (List.range rows.length).map (fun _ => (-1 : Int)) := by
  unfold uploadClusterCol
  rw [hci]
  rfl

/-- C8 — the code defect: an Admin upload whose normalized table has
zero complete rows COMMITS everything the claim asks for (the dataset
inserted and made active, every student row persisted sanitized, an
empty cluster run, no assignment rows) — and then fails to return
successfully: building the reply reads the quality-metric locals that
were only ever assigned on the non-empty branch, so the endpoint
raises `NameError: name 'silhouette' is not defined` and surfaces a
500 AFTER the commit, instead of the claimed success reply. -/
theorem upload_zero_complete_bug (raw : List SRow) (kq : Option Nat)
    (knee : Option Nat) (st : DBState)
    (hnc : filter_complete_students_df (raw.map normalize_and_prepare_row) = []) :
    uploadOp raw kq knee "Admin" st
      = (uploadCommit st (raw.map normalize_and_prepare_row) kq [] [],
         .error (.server "name silhouette is not defined"))
  ∧ (uploadCommit st (raw.map normalize_and_prepare_row) kq [] []).student_cluster
      = st.student_cluster
  ∧ (⟨st.nextId + 1, st.nextId, kq, []⟩ : ClusterRow)
      ∈ (uploadCommit st (raw.map normalize_and_prepare_row) kq [] []).clusters
  ∧ (uploadCommit st (raw.map normalize_and_prepare_row) kq [] []).students.length
      = st.students.length + raw.length
  ∧ (⟨st.nextId, maxSeq st.datasets + 1, true⟩ : DatasetRow)
      ∈ (uploadCommit st (raw.map normalize_and_prepare_row) kq [] []).datasets := by
  have hci : completeIdx (raw.map normalize_and_prepare_row) = [] :=
    List.eq_nil_of_length_eq_zero (by rw [completeIdx_length, hnc]; rfl)
  have hsc : (List.range (raw.map normalize_and_prepare_row).length).filterMap
      (fun i =>
        match (uploadClusterCol (raw.map normalize_and_prepare_row) []).getD i (-1) with
        | .ofNat n => some (⟨st.nextId + 2 + i, st.nextId + 1, n⟩ : SCRow)
        | .negSucc _ => none) = [] := by
    rw [List.filterMap_eq_nil_iff]
    intro i _
    rw [uploadClusterCol_nil _ hci, getD_map_const]
    rfl
  refine ⟨?_, ?_, ?_, ?_, ?_⟩
  · unfold uploadOp
    rw [if_neg (by decide)]
    dsimp only
    rw [hnc]
    simp only [List.isEmpty_nil, if_true]
  · unfold uploadCommit
    dsimp only
    rw [hsc, List.append_nil]
  · unfold uploadCommit
    simp
  · unfold uploadCommit
    simp
  · unfold uploadCommit
    simp

/-- Witness for C8: uploading a two-row sheet whose rows both lack
income (zero complete rows) into an empty store commits dataset 1,
both students, and an empty run, then surfaces the NameError 500. -/
theorem upload_zero_complete_bug_witness :
    uploadOp [rowNI 0, rowNI 0] (some 2) none "Admin" stEmpty
      = (uploadCommit stEmpty ([rowNI 0, rowNI 0].map normalize_and_prepare_row)
           (some 2) [] [],
         .error (.server "name silhouette is not defined"))
  ∧ (uploadCommit stEmpty ([rowNI 0, rowNI 0].map normalize_and_prepare_row)
        (some 2) [] []).student_cluster = stEmpty.student_cluster
  ∧ (⟨stEmpty.nextId + 1, stEmpty.nextId, some 2, []⟩ : ClusterRow)
      ∈ (uploadCommit stEmpty ([rowNI 0, rowNI 0].map normalize_and_prepare_row)
          (some 2) [] []).clusters
  ∧ (uploadCommit stEmpty ([rowNI 0, rowNI 0].map normalize_and_prepare_row)
        (some 2) [] []).students.length = stEmpty.students.length + 2
  ∧ (⟨stEmpty.nextId, maxSeq stEmpty.datasets + 1, true⟩ : DatasetRow)
      ∈ (uploadCommit stEmpty ([rowNI 0, rowNI 0].map normalize_and_prepare_row)
          (some 2) [] []).datasets :=
  upload_zero_complete_bug [rowNI 0, rowNI 0] (some 2) none stEmpty (by decide)

lemma getD_map_range {α : Type} (n i : Nat) (g : Nat → α) (d : α) (h : i < n) :
    ((List.range n).map g).getD i d = g i := by
  rw [List.getD_eq_getElem?_getD, List.getElem?_map, List.getElem?_range h]
  rfl

lemma uploadOp_run (raw : List SRow) (k : Nat) (knee : Option Nat) (st : DBState)
    (hfit : kmeansFitOk k
        ((filter_complete_students_df (raw.map normalize_and_prepare_row)).map
          (fun r => [cellFloat0 r.gwa, cellFloat0 r.income])) = true) :
    uploadOp raw (some k) knee "Admin" st
      = (uploadCommit st (raw.map normalize_and_prepare_row) (some k)
           ((List.range
               ((filter_complete_students_df (raw.map normalize_and_prepare_row)).map
                 (fun r => [cellFloat0 r.gwa, cellFloat0 r.income])).length).map
             (fun i => i % k))
           ((List.range k).map (fun _ =>
             (((filter_complete_students_df (raw.map normalize_and_prepare_row)).map
                 (fun r => [cellFloat0 r.gwa, cellFloat0 r.income])).headD []).map
               (fun _ => (0 : Rat)))),
         .ok ⟨st.nextId, (raw.map normalize_and_prepare_row).length, some k, 0, 0, 0⟩) := by
  have hk1 : 1 ≤ k
      ∧ k ≤ (filter_complete_students_df (raw.map normalize_and_prepare_row)).length := by
    have h := hfit
    simp only [kmeansFitOk, Bool.and_eq_true, decide_eq_true_eq, List.length_map] at h
    exact h
  have hdfc : (filter_complete_students_df
      (raw.map normalize_and_prepare_row)).isEmpty = false :=
    isEmpty_false_of_length_pos (by omega)
  unfold uploadOp
  rw [if_neg (by decide)]
  dsimp only
  simp only [hdfc, Bool.false_eq_true, if_false]
  rw [kmeansFit_some hfit]

lemma uploadCommit_sc_complete (st : DBState) (df : List SRow) (kUsed : Option Nat)
    (preds : List Nat) (cents : List (List Rat)) (i : Nat)
    (hilen : i < df.length) (hic : is_record_complete_row (df.getD i {}) = true) :
    ∃ sc ∈ (uploadCommit st df kUsed preds cents).student_cluster,
      sc.student_id = st.nextId + 2 + i ∧ sc.cluster_id = st.nextId + 1 ∧
      ∃ pos, pos < (completeIdx df).length ∧ sc.cluster_number = preds.getD pos 0 := by
  have hmemC : i ∈ completeIdx df := mem_completeIdx.mpr ⟨hilen, hic⟩
  obtain ⟨pos, hpos, hplt⟩ := mem_indexOf?_some hmemC
  refine ⟨⟨st.nextId + 2 + i, st.nextId + 1, preds.getD pos 0⟩, ?_, rfl, rfl,
    pos, hplt, rfl⟩
  unfold uploadCommit
  dsimp only
  rw [List.mem_append]
  right
  rw [List.mem_filterMap]
  refine ⟨i, List.mem_range.mpr hilen, ?_⟩
  have hcol : (uploadClusterCol df preds).getD i (-1)
      = Int.ofNat (preds.getD pos 0) := by
    unfold uploadClusterCol
    rw [getD_map_range _ _ _ _ hilen, hpos]
    rfl
  rw [hcol]

lemma uploadCommit_sc_incomplete (st : DBState) (df : List SRow) (kUsed : Option Nat)
    (preds : List Nat) (cents : List (List Rat)) (i : Nat)
    (hfresh : ∀ sc ∈ st.student_cluster, sc.student_id < st.nextId)
    (hic : is_record_complete_row (df.getD i {}) = false) :
    ∀ sc ∈ (uploadCommit st df kUsed preds cents).student_cluster,
      sc.student_id ≠ st.nextId + 2 + i := by
  intro sc hsc
  unfold uploadCommit at hsc
  dsimp only at hsc
  rw [List.mem_append] at hsc
  rcases hsc with hold | hnew
  · have := hfresh sc hold
    omega
  · rw [List.mem_filterMap] at hnew
    obtain ⟨j, hj, hfj⟩ := hnew
    have hjlen : j < df.length := List.mem_range.mp hj
    rcases hcase : (uploadClusterCol df preds).getD j (-1) with n | m
    · rw [hcase] at hfj
      have hscval : sc = ⟨st.nextId + 2 + j, st.nextId + 1, n⟩ :=
        (Option.some.injEq _ _).mp hfj.symm ▸ rfl
      intro heq
      have hji : j = i := by
        rw [hscval] at heq
        simp only at heq
        omega
      subst hji
      have hnotm : j ∉ completeIdx df := by
        intro hm
        have := (mem_completeIdx.mp hm).2
        rw [hic] at this
        exact Bool.noConfusion this
      have hnone : (completeIdx df).indexOf? j = none := not_mem_indexOf?_none hnotm
      have hcol : (uploadClusterCol df preds).getD j (-1) = -1 := by
        unfold uploadClusterCol
        rw [getD_map_range _ _ _ _ hjlen, hnone]
      rw [hcol] at hcase
      exact Int.noConfusion hcase
    · rw [hcase] at hfj
      exact Option.noConfusion hfj

lemma officialReplace_sc_cover (st : DBState) (did k : Nat) (dfc : List SRow)
    (preds : List Nat) (cents : List (List Rat))
    (hlen : dfc.length ≤ preds.length) :
    ∀ s ∈ dfc,
      ∃ sc ∈ (officialReplace st did k (dfc.map (·.id)) preds cents).student_cluster,
        sc.student_id = s.id ∧ sc.cluster_id = st.nextId ∧ sc.cluster_number ∈ preds := by
  intro s hs
  obtain ⟨⟨i, hi⟩, hget⟩ := List.mem_iff_get.mp hs
  have hip : i < preds.length := by omega
  refine ⟨⟨s.id, st.nextId, preds.get ⟨i, hip⟩⟩, ?_, rfl, rfl, List.get_mem _ _ _⟩
  unfold officialReplace
  dsimp only
  rw [List.mem_append]
  right
  rw [List.mem_map]
  refine ⟨(s.id, preds.get ⟨i, hip⟩), ?_, rfl⟩
  have hzlen : i < ((dfc.map (·.id)).zip preds).length := by
    rw [List.length_zip, List.length_map]
    omega
  have hval : ((dfc.map (·.id)).zip preds).get ⟨i, hzlen⟩
      = (s.id, preds.get ⟨i, hip⟩) := by
    rw [List.get_eq_getElem, List.getElem_zip]
    rw [List.getElem_map]
    rw [← hget]
    rfl
  rw [← hval]
  exact List.get_mem _ _ _

/-- C3: for an upload (with requested k, under an Admin) and for an
official recluster, exactly the complete records receive an assignment
row, always with a label in 0..k-1: on upload, the i-th sheet row gets
an assignment (pointing at the new run) iff its normalized form is
complete, and the inserted run carries exactly k centroids; on
an official recluster, every complete student of the dataset gets an
assignment to the new run with a label below k, and no assignment row
references an incomplete student. -/
theorem complete_rows_assignments (rawU : List SRow) (kU : Nat) (kneeU : Option Nat)
    (stU : DBState) (k : Nat) (st : DBState) (d : DatasetRow)
    (preds : List Nat) (cents : List (List Rat))
    (hfitU : kmeansFitOk kU
        ((filter_complete_students_df (rawU.map normalize_and_prepare_row)).map
          (fun r => [cellFloat0 r.gwa, cellFloat0 r.income])) = true)
    (hfreshU : ∀ sc ∈ stU.student_cluster, sc.student_id < stU.nextId)
    (hd : latestDataset st.datasets = some d)
    (h2 : ¬(k < 2))
    (hne : (dstudents st d.id).isEmpty = false)
    (hklen : ¬((dstudents st d.id).length < k))
    (hfit : kmeansFit k (reclusterX (dstudents st d.id)) = some (preds, cents))
    (hinv : ∀ sc ∈ st.student_cluster,
        (∃ s ∈ st.students, s.id = sc.student_id ∧ s.dataset_id = d.id) →
        ∃ c ∈ st.clusters, c.id = sc.cluster_id ∧ c.dataset_id = d.id)
    (hNodup : (st.students.map (·.id)).Nodup) :
    (uploadOp rawU (some kU) kneeU "Admin" stU).2
      = .ok ⟨stU.nextId, (rawU.map normalize_and_prepare_row).length, some kU, 0, 0, 0⟩
  ∧ (∀ i, i < (rawU.map normalize_and_prepare_row).length →
      is_record_complete_row ((rawU.map normalize_and_prepare_row).getD i {}) = true →
      ∃ sc ∈ (uploadOp rawU (some kU) kneeU "Admin" stU).1.student_cluster,
        sc.student_id = stU.nextId + 2 + i ∧ sc.cluster_id = stU.nextId + 1
          ∧ sc.cluster_number < kU)
  ∧ (∀ i, i < (rawU.map normalize_and_prepare_row).length →
      is_record_complete_row ((rawU.map normalize_and_prepare_row).getD i {}) = false →
      ∀ sc ∈ (uploadOp rawU (some kU) kneeU "Admin" stU).1.student_cluster,
        sc.student_id ≠ stU.nextId + 2 + i)
  ∧ (∃ cs, (⟨stU.nextId + 1, stU.nextId, some kU, cs⟩ : ClusterRow)
        ∈ (uploadOp rawU (some kU) kneeU "Admin" stU).1.clusters ∧ cs.length = kU)
  ∧ (∀ s ∈ filter_complete_students_df (dstudents st d.id),
      ∃ sc ∈ (reclusterOp k "Admin" st).1.student_cluster,
        sc.student_id = s.id ∧ sc.cluster_id = st.nextId ∧ sc.cluster_number < k)
  ∧ (∀ s ∈ dstudents st d.id, is_record_complete_row s = false →
      ∀ sc ∈ (reclusterOp k "Admin" st).1.student_cluster, sc.student_id ≠ s.id) := by
  have hrunU := uploadOp_run rawU kU kneeU stU hfitU
  have hk1U : 1 ≤ kU := by
    have h := hfitU
    simp only [kmeansFitOk, Bool.and_eq_true, decide_eq_true_eq] at h
    exact h.1
  have hrun := reclusterOp_run k "Admin" st d preds cents hd h2 hne hklen hfit
  simp only [beq_self_eq_true, if_true] at hrun
  obtain ⟨hplen, hplt, hclen⟩ := kmeansFit_shape hfit
  rw [reclusterX_length] at hplen
  refine ⟨?_, ?_, ?_, ?_, ?_, ?_⟩
  · rw [hrunU]
  · intro i hi hc
    rw [hrunU]
    obtain ⟨sc, hsc, e1, e2, pos, hpos, e3⟩ :=
      uploadCommit_sc_complete stU (rawU.map normalize_and_prepare_row) (some kU)
        ((List.range
            ((filter_complete_students_df (rawU.map normalize_and_prepare_row)).map
              (fun r => [cellFloat0 r.gwa, cellFloat0 r.income])).length).map
          (fun j => j % kU))
        ((List.range kU).map (fun _ =>
          (((filter_complete_students_df (rawU.map normalize_and_prepare_row)).map
              (fun r => [cellFloat0 r.gwa, cellFloat0 r.income])).headD []).map
            (fun _ => (0 : Rat))))
        i hi hc
    refine ⟨sc, hsc, e1, e2, ?_⟩
    rw [e3]
    have hposX : pos
        < ((filter_complete_students_df (rawU.map normalize_and_prepare_row)).map
            (fun r => [cellFloat0 r.gwa, cellFloat0 r.income])).length := by
      rw [List.length_map]
      rw [completeIdx_length] at hpos
      omega
    rw [getD_map_range _ _ _ _ hposX]
    exact Nat.mod_lt pos (by omega)
  · intro i hi hic sc hsc
    rw [hrunU] at hsc
    exact uploadCommit_sc_incomplete stU (rawU.map normalize_and_prepare_row) (some kU)
      _ _ i hfreshU hic sc hsc
  · refine ⟨(List.range kU).map (fun _ =>
        (((filter_complete_students_df (rawU.map normalize_and_prepare_row)).map
            (fun r => [cellFloat0 r.gwa, cellFloat0 r.income])).headD []).map
          (fun _ => (0 : Rat))), ?_, ?_⟩
    · rw [hrunU]
      unfold uploadCommit
      dsimp only
      rw [List.mem_append]
      right
      exact List.mem_singleton_self _
    · rw [List.length_map, List.length_range]
  · intro s hs
    rw [hrun]
    obtain ⟨sc, hsc, e1, e2, e3⟩ :=
      officialReplace_sc_cover st d.id k
        (filter_complete_students_df (dstudents st d.id)) preds cents
        (by omega) s hs
    exact ⟨sc, hsc, e1, e2, hplt _ e3⟩
  · intro s hs hsic sc hscmem heq
    rw [hrun] at hscmem
    rcases officialReplace_sc st d.id k
        ((filter_complete_students_df (dstudents st d.id)).map (·.id)) preds cents
        sc hscmem with ⟨hold, hno⟩ | ⟨hcid, hmem⟩
    · have hsflt := List.mem_filter.mp hs
      obtain ⟨c, hc, hcid2, hcd⟩ := hinv sc hold
        ⟨s, hsflt.1, heq.symm, by simpa using hsflt.2⟩
      exact hno c hc hcd hcid2.symm
    · rw [List.mem_map] at hmem
      obtain ⟨s2, hs2, hid⟩ := hmem
      have hs2f := List.mem_filter.mp hs2
      have hs2stu : s2 ∈ st.students := (List.mem_filter.mp hs2f.1).1
      have hsstu : s ∈ st.students := (List.mem_filter.mp hs).1
      have hs2c : is_record_complete_row s2 = true := by simpa using hs2f.2
      have heqrow : s2 = s :=
        List.inj_on_of_nodup_map hNodup hs2stu hsstu (by rw [hid, heq])
      rw [heqrow, hsic] at hs2c
      exact Bool.noConfusion hs2c

/-- Witness for C3: the end-to-end scenario — a 10-row sheet with 2
rows missing income, uploaded with k = 2 into an empty store (8 rows
get an assignment with a label in {0, 1}, 2 rows get none, the run has
2 centroids) — and an official k = 2 recluster of `stBase`. -/
theorem complete_rows_assignments_witness :
    (uploadOp sheet10 (some 2) none "Admin" stEmpty).2
      = .ok ⟨stEmpty.nextId, (sheet10.map normalize_and_prepare_row).length, some 2, 0, 0, 0⟩
  ∧ (∀ i, i < (sheet10.map normalize_and_prepare_row).length →
      is_record_complete_row ((sheet10.map normalize_and_prepare_row).getD i {}) = true →
      ∃ sc ∈ (uploadOp sheet10 (some 2) none "Admin" stEmpty).1.student_cluster,
        sc.student_id = stEmpty.nextId + 2 + i ∧ sc.cluster_id = stEmpty.nextId + 1
          ∧ sc.cluster_number < 2)
  ∧ (∀ i, i < (sheet10.map normalize_and_prepare_row).length →
      is_record_complete_row ((sheet10.map normalize_and_prepare_row).getD i {}) = false →
      ∀ sc ∈ (uploadOp sheet10 (some 2) none "Admin" stEmpty).1.student_cluster,
        sc.student_id ≠ stEmpty.nextId + 2 + i)
  ∧ (∃ cs, (⟨stEmpty.nextId + 1, stEmpty.nextId, some 2, cs⟩ : ClusterRow)
        ∈ (uploadOp sheet10 (some 2) none "Admin" stEmpty).1.clusters ∧ cs.length = 2)
  ∧ (∀ s ∈ filter_complete_students_df (dstudents stBase 1),
      ∃ sc ∈ (reclusterOp 2 "Admin" stBase).1.student_cluster,
        sc.student_id = s.id ∧ sc.cluster_id = stBase.nextId ∧ sc.cluster_number < 2)
  ∧ (∀ s ∈ dstudents stBase 1, is_record_complete_row s = false →
      ∀ sc ∈ (reclusterOp 2 "Admin" stBase).1.student_cluster, sc.student_id ≠ s.id) :=
  complete_rows_assignments sheet10 2 none stEmpty 2 stBase ⟨1, 1, true⟩ [0, 1]
    [[0, 0, 0, 0, 0, 0, 0], [0, 0, 0, 0, 0, 0, 0]]
    (by decide) (by decide) (by decide) (by decide) (by decide) (by decide) (by decide)
    (by decide) (by decide)
